import Mathlib

/-!
Verification of `pyzjr/visualize/core.py` (FPS, Timer, Runcodes, ColorFind).

Shallow embedding conventions:
* wall-clock readings (`time.time()`, `time.perf_counter()`) are modelled as
  rationals supplied explicitly to each call;
* mutable objects become explicit state records, methods become functions
  from state (and clock reading) to result and new state;
* Python's `ZeroDivisionError` path is modelled with `Option`/explicit
  zero tests mirroring the `try ... except` in the source;
* images are lists of pixel rows; `cv2` primitives used by the code
  (`inRange`, `bitwise_and` with a mask, `putText`) are embedded over them,
  with the BGR→HSV conversion kept as an abstract parameter.
-/

namespace PyVis

/-- Python division `a / b`: raises `ZeroDivisionError` (here `none`) when
the divisor is zero. -/
def pydiv (a b : ℚ) : Option ℚ :=
  if b = 0 then none else some (a / b)

/-- Python `int()` applied to a nonnegative-denominator rational:
truncation toward zero, as for Python floats. -/
def pyint (q : ℚ) : ℤ :=
  q.num.tdiv (q.den : ℤ)

/-! ### FPS (frame-rate meter) -/

/-- State of an `FPS` object: the single mutable field `self.pTime`. -/
structure FPSState where
  pTime : ℚ
deriving DecidableEq

/-- A text item drawn by `cv2.putText`: text, position, color, scale,
thickness. -/
structure Overlay where
  text : String
  pos : ℕ × ℕ
  color : ℕ × ℕ × ℕ
  scale : ℕ
  thickness : ℕ
deriving DecidableEq

/-- An image as seen by `FPS.update`: abstract frame content plus the list
of text overlays drawn onto it so far. -/
structure FImage where
  frame : ℕ
  overlays : List Overlay
deriving DecidableEq

/-- `cv2.putText(img, text, pos, font, scale, color, thickness)`:
draws `text` onto the image. -/
def putText (img : FImage) (text : String) (pos : ℕ × ℕ)
    (color : ℕ × ℕ × ℕ) (scale thickness : ℕ) : FImage :=
  { img with overlays := img.overlays ++ [⟨text, pos, color, scale, thickness⟩] }

/-- Return value of `FPS.update`: either the bare fps number or the
`(fps, img)` pair. -/
inductive FPSRet where
  | scalar (v : ℚ)
  | pair (v : ℚ) (img : FImage)
deriving DecidableEq

/-- The string `f'FPS: {int(fps)}'`. -/
def fpsLabel (fps : ℚ) : String :=
  "FPS: " ++ toString (pyint fps)

/-- `FPS.update(self, img=None, pos=(20,50), color=(255,0,0), scale=3,
thickness=3)`.  `cTime` is the reading of `time.time()` taken at the top of
the call.  The `try` block computes `fps = 1 / (cTime - pTime)`; when the
interval is zero the division raises and the bare `except` returns `0`
with the state untouched.  Otherwise `pTime` is set to `cTime` and the
result depends on whether an image was supplied. -/
def FPS.update (s : FPSState) (cTime : ℚ) (img : Option FImage)
    (pos : ℕ × ℕ) (color : ℕ × ℕ × ℕ) (scale thickness : ℕ) :
    FPSRet × FPSState :=
  if cTime - s.pTime = 0 then
    (.scalar 0, s)
  else
    let fps := 1 / (cTime - s.pTime)
    match img with
    | none => (.scalar fps, ⟨cTime⟩)
    | some im =>
        (.pair fps (putText im (fpsLabel fps) pos color scale thickness), ⟨cTime⟩)

/-! ### Timer (stopwatch) -/

/-- State of a `Timer`: the reference time `self.gap` and the sample list
`self.times`. -/
structure TimerState where
  gap : ℚ
  times : List ℚ
deriving DecidableEq

/-- `Timer.__init__`: `self.times = []` then `self.start()`. -/
def Timer.init (now : ℚ) : TimerState :=
  { gap := now, times := [] }

/-- `Timer.start`: `self.gap = time.time()`. -/
def Timer.start (s : TimerState) (now : ℚ) : TimerState :=
  { s with gap := now }

/-- `Timer.stop`: appends `time.time() - self.gap` to `self.times` and
returns `self.times[-1]`. -/
def Timer.stop (s : TimerState) (now : ℚ) : ℚ × TimerState :=
  let sample := now - s.gap
  (sample, { s with times := s.times ++ [sample] })

/-- `Timer.avg`: `sum(self.times) / len(self.times)` — a Python division,
so it raises (`none`) on an empty sample list. -/
def Timer.avg (s : TimerState) : Option ℚ :=
  pydiv s.times.sum s.times.length

/-- `Timer.total`: `sum(self.times)`; `sum` of an empty list is `0`, no
division occurs. -/
def Timer.total (s : TimerState) : ℚ :=
  s.times.sum

/-- Running partial sums with accumulator, mirroring how
`np.cumsum` accumulates left to right. -/
def cumsumFrom (acc : ℚ) : List ℚ → List ℚ
  | [] => []
  | x :: xs => (acc + x) :: cumsumFrom (acc + x) xs

/-- `Timer.cumsum`: `np.array(self.times).cumsum().tolist()`. -/
def Timer.cumsum (s : TimerState) : List ℚ :=
  cumsumFrom 0 s.times

/-! ### Runcodes (scoped timer) -/

/-- Exactly `prec` decimal digit characters of `n` (most significant
first), i.e. the zero-padded base-10 rendering of `n % 10 ^ prec`. -/
def decDigits : ℕ → ℕ → List Char
  | 0, _ => []
  | k + 1, n => decDigits k (n / 10) ++ [Char.ofNat (48 + n % 10)]

/-- Python fixed-point formatting `"%.{prec}f"` on a rational: round the
absolute value to `prec` decimal places, print integer part, a point, and
exactly `prec` fractional digits, with a minus sign for negative nonzero
results. -/
def formatFixed (prec : ℕ) (q : ℚ) : String :=
  let m : ℕ := (round (|q| * (10 : ℚ) ^ prec)).toNat
  let ip := m / 10 ^ prec
  let fr := m % 10 ^ prec
  (if q < 0 ∧ m ≠ 0 then "-" else "") ++ toString ip ++ "." ++
    String.mk (decDigits prec fr)

/-- State of a `Runcodes` context: the configured description and, once
`__enter__` has run, its `Timer`. -/
structure RuncodesState where
  description : String
  timer : TimerState
deriving DecidableEq

/-- The default of the `description` parameter of `Runcodes.__init__`. -/
def Runcodes.defaultDescription : String := "Done"

/-- `Runcodes.__enter__`: `self.timer = Timer()` (which starts at the
current clock reading). -/
def Runcodes.enter (description : String) (now : ℚ) : RuncodesState :=
  { description := description, timer := Timer.init now }

/-- `Runcodes.__exit__(self, *args)`: stops the timer and prints
`f'{self.description}: {self.timer.stop():.7f} sec'`.  The exception
information (`excInfo`, Python's `*args`) is ignored, so the same line is
printed on normal and exceptional exits.  Returns the printed line and
the state after `stop()`. -/
def Runcodes.exited (s : RuncodesState) (now : ℚ) (_excInfo : Option String) :
    String × RuncodesState :=
  let (sample, t) := Timer.stop s.timer now
  (s.description ++ ": " ++ formatFixed 7 sample ++ " sec",
    { s with timer := t })

/-! ### ColorFind (color-range detector) -/

/-- A 3-channel pixel (BGR in the input image, HSV after conversion). -/
abbrev Pix := ℕ × ℕ × ℕ

/-- A color image: rows of pixels. -/
abbrev Img := List (List Pix)

/-- A single-channel mask image: rows of values in `{0, 255}`. -/
abbrev MaskImg := List (List ℕ)

/-- `cv2.inRange` per pixel: `255` when every channel lies inclusively
between the corresponding lower and upper bound, else `0`. -/
def inRangePix (lo hi p : Pix) : ℕ :=
  if lo.1 ≤ p.1 ∧ p.1 ≤ hi.1 ∧ lo.2.1 ≤ p.2.1 ∧ p.2.1 ≤ hi.2.1 ∧
      lo.2.2 ≤ p.2.2 ∧ p.2.2 ≤ hi.2.2 then 255 else 0

/-- `cv2.inRange(imgHSV, lower, upper)`. -/
def cvInRange (imgHSV : Img) (lo hi : Pix) : MaskImg :=
  imgHSV.map (fun row => row.map (inRangePix lo hi))

/-- `cv2.bitwise_and(img, img, mask=mask)`: keep the pixel where the mask
is nonzero, black elsewhere. -/
def cvBitwiseAndMask (img : Img) (mask : MaskImg) : Img :=
  (img.zip mask).map (fun rm =>
    (rm.1.zip rm.2).map (fun pm => if pm.2 ≠ 0 then pm.1 else (0, 0, 0)))

/-- `ColorFind.MaskZone(self, img, HsvVals)`: convert to HSV (the
conversion `cv2.cvtColor(..., COLOR_BGR2HSV)` is the abstract parameter
`hsvOf`), threshold with `cv2.inRange`, and composite with
`cv2.bitwise_and`.  Returns `(imgResult, mask)`. -/
def MaskZone (hsvOf : Pix → Pix) (img : Img) (c : Pix × Pix) :
    Img × MaskImg :=
  let imgHSV := img.map (fun row => row.map hsvOf)
  let mask := cvInRange imgHSV c.1 c.2
  (cvBitwiseAndMask img mask, mask)

/-- `ColorFind.getColorHSV(self, myColor)`: fixed presets for
`'red'`, `'green'`, `'blue'`; any other name yields `None` and two
`logging.warning` lines (returned here as the second component). -/
def ColorFind.getColorHSV (myColor : String) :
    Option (Pix × Pix) × List String :=
  if myColor = "red" then
    (some ((146, 141, 77), (179, 255, 255)), [])
  else if myColor = "green" then
    (some ((44, 79, 111), (79, 255, 255)), [])
  else if myColor = "blue" then
    (some ((103, 68, 130), (128, 255, 255)), [])
  else
    (none, ["Color Not Defined", "Available colors: red, green, blue "])

/-- Row part of the numpy slice assignment `row[x_start:x_end] = 0`
(nonnegative bounds): the element at index `x` is zeroed when `x` lies in
`[x0, x1)`; the first argument tracks the index of the list head. -/
def zeroRowFrom (x0 x1 : ℕ) : ℕ → List ℕ → List ℕ
  | _, [] => []
  | x, v :: vs => (if x0 ≤ x ∧ x < x1 then 0 else v) :: zeroRowFrom x0 x1 (x + 1) vs

/-- The numpy slice assignment `mask[y_start:y_end, x_start:x_end] = 0`
with nonnegative bounds: rows with index in `[y0, y1)` have the column
range `[x0, x1)` zeroed; indices past the array extent simply do not
exist, matching numpy's clipping of slice bounds. -/
def zeroRectFrom (x0 x1 y0 y1 : ℕ) : ℕ → MaskImg → MaskImg
  | _, [] => []
  | y, row :: rows =>
      (if y0 ≤ y ∧ y < y1 then zeroRowFrom x0 x1 0 row else row) ::
        zeroRectFrom x0 x1 y0 y1 (y + 1) rows

/-- `ColorFind.protect_region(self, mask, threshold=None)`: `None` returns
the mask unchanged; a rectangle `[x_start, x_end, y_start, y_end]` zeroes
`mask[y_start:y_end, x_start:x_end]`. -/
def ColorFind.protect_region (mask : MaskImg)
    (threshold : Option (ℕ × ℕ × ℕ × ℕ)) : MaskImg :=
  match threshold with
  | none => mask
  | some (xStart, xEnd, yStart, yEnd) => zeroRectFrom xStart xEnd yStart yEnd 0 mask

/-- The `myColor` argument of `ColorFind.update`: either a preset name
string or an explicit `[lower, upper]` HSV pair. -/
inductive ColorArg where
  | nameArg (s : String)
  | valsArg (c : Pix × Pix)
deriving DecidableEq

/-- A Python value returned in one of the two result slots of
`ColorFind.update`.  `tupleOf r` is a one-element tuple `(r,)` — the
initializer `imgColor = [],` in the source carries a trailing comma, so
the no-detection `imgColor` is the tuple `([],)`, not the list `[]`. -/
inductive PyRes where
  | emptyList
  | tupleOf (r : PyRes)
  | imgVal (i : Img)
  | maskVal (m : MaskImg)
deriving DecidableEq

/-- `ColorFind.update(self, img, myColor=None)`.  `trackBar` is the flag
fixed at construction; `tbVals` stands for the slider read-back
`getTrackbarValues()` used when that flag is set.  A string `myColor` is
resolved through `getColorHSV`; when the resolved spec is not `None`,
`MaskZone` runs, otherwise the initializers `imgColor = [],` and
`mask = []` are returned as-is. -/
def ColorFind.update (trackBar : Bool) (tbVals : Pix × Pix)
    (hsvOf : Pix → Pix) (img : Img) (myColor : Option ColorArg) :
    PyRes × PyRes :=
  let myColor1 : Option ColorArg :=
    if trackBar then some (.valsArg tbVals) else myColor
  let resolved : Option (Pix × Pix) :=
    match myColor1 with
    | some (.nameArg s) => (ColorFind.getColorHSV s).1
    | some (.valsArg c) => some c
    | none => none
  match resolved with
  | some c =>
      let r := MaskZone hsvOf img c
      (.imgVal r.1, .maskVal r.2)
  | none => (.tupleOf .emptyList, .emptyList)

/-- Looks up element `(y, x)` of a mask image. -/
def maskAt (m : MaskImg) (y x : ℕ) : Option ℕ :=
  (m[y]?).bind (fun row => row[x]?)

/-! ## Helper lemmas -/

theorem cumsumFrom_length (a : ℚ) (l : List ℚ) :
    (cumsumFrom a l).length = l.length := by
  induction l generalizing a with
  | nil => rfl
  | cons x xs ih => simp [cumsumFrom, ih]

theorem cumsumFrom_getElem? (a : ℚ) (l : List ℚ) (i : ℕ) (h : i < l.length) :
    (cumsumFrom a l)[i]? = some (a + (l.take (i + 1)).sum) := by
  induction l generalizing a i with
  | nil => simp at h
  | cons x xs ih =>
    cases i with
    | zero => simp [cumsumFrom]
    | succ j =>
      have hj : j < xs.length := by simpa using h
      simp [cumsumFrom, ih (a + x) j hj, add_assoc]

theorem decDigits_length (prec n : ℕ) : (decDigits prec n).length = prec := by
  induction prec generalizing n with
  | zero => rfl
  | succ k ih => simp [decDigits, ih]

theorem zeroRowFrom_getElem? (x0 x1 : ℕ) (row : List ℕ) (d x : ℕ) :
    (zeroRowFrom x0 x1 d row)[x]? =
      (row[x]?).map (fun v => if x0 ≤ d + x ∧ d + x < x1 then 0 else v) := by
  induction row generalizing d x with
  | nil => simp [zeroRowFrom]
  | cons v vs ih =>
    cases x with
    | zero => simp [zeroRowFrom]
    | succ j =>
      have e : d + 1 + j = d + (j + 1) := by omega
      simp only [zeroRowFrom, List.getElem?_cons_succ, ih (d + 1) j, e]

theorem zeroRectFrom_getElem? (x0 x1 y0 y1 : ℕ) (rows : MaskImg) (d y : ℕ) :
    (zeroRectFrom x0 x1 y0 y1 d rows)[y]? =
      (rows[y]?).map
        (fun row => if y0 ≤ d + y ∧ d + y < y1 then zeroRowFrom x0 x1 0 row else row) := by
  induction rows generalizing d y with
  | nil => simp [zeroRectFrom]
  | cons r rs ih =>
    cases y with
    | zero => simp [zeroRectFrom]
    | succ j =>
      have e : d + 1 + j = d + (j + 1) := by omega
      simp only [zeroRectFrom, List.getElem?_cons_succ, ih (d + 1) j, e]

/-! ## Claims -/

/-- C1: the claim says `ColorFind.update` with sliders disabled and
`myColor = None` returns `([], [])`.  The code's initializer
`imgColor = [],` carries a trailing comma, so the first slot is actually
the one-element tuple `([],)`: the call returns `(([],), [])`, which
differs from the claimed `([], [])`. -/
theorem colorfind_update_no_color (tbVals : Pix × Pix) (hsvOf : Pix → Pix)
    (img : Img) :
    ColorFind.update false tbVals hsvOf img none =
      (PyRes.tupleOf PyRes.emptyList, PyRes.emptyList) ∧
    (PyRes.tupleOf PyRes.emptyList, PyRes.emptyList) ≠
      (PyRes.emptyList, PyRes.emptyList) :=
  ⟨rfl, by decide⟩

/-- C2: when the measured interval `cTime - pTime` is zero, the division
in `FPS.update` raises, the bare `except` catches it, and the method
returns `0` — whether or not an image was supplied (the embedding is a
total function, so no exception escapes). -/
theorem fps_update_zero_interval (s : FPSState) (cTime : ℚ)
    (img : Option FImage) (pos : ℕ × ℕ) (color : ℕ × ℕ × ℕ)
    (scale thickness : ℕ) (h : cTime - s.pTime = 0) :
    (FPS.update s cTime img pos color scale thickness).1 = .scalar 0 := by
  simp [FPS.update, h]

/-- Witness for C2 at a concrete zero-interval call with an image. -/
theorem fps_update_zero_interval_witness :
    (3 : ℚ) - (FPSState.mk 3).pTime = 0 ∧
    (FPS.update ⟨3⟩ 3 (some ⟨0, []⟩) (20, 50) (255, 0, 0) 3 3).1 = .scalar 0 :=
  ⟨by norm_num, fps_update_zero_interval ⟨3⟩ 3 (some ⟨0, []⟩) (20, 50)
    (255, 0, 0) 3 3 (by norm_num)⟩

/-- C3 counterexample: on an empty sample list `avg()` does fail with a
division by zero (`none`), but `total()` is `sum([]) = 0` — it returns a
value and does not fail, contrary to the claim that both fail. -/
theorem timer_total_empty_counterexample :
    Timer.avg ⟨0, []⟩ = none ∧ Timer.total ⟨0, []⟩ = 0 :=
  ⟨rfl, rfl⟩

/-- C3 amended: with no recorded samples, `avg()` fails with a
division-by-zero condition, while `total()` returns `0`. -/
theorem timer_avg_total_empty (s : TimerState) (h : s.times = []) :
    Timer.avg s = none ∧ Timer.total s = 0 := by
  simp [Timer.avg, Timer.total, pydiv, h]

/-- Witness for the amended C3 on a freshly constructed timer. -/
theorem timer_avg_total_empty_witness :
    (Timer.init 5).times = [] ∧
    (Timer.avg (Timer.init 5) = none ∧ Timer.total (Timer.init 5) = 0) :=
  ⟨rfl, timer_avg_total_empty (Timer.init 5) rfl⟩

/-- C7: after every call to `FPS.update` the stored `pTime` equals the
clock reading `cTime` taken during the call.  On the division-failure
path the assignment `self.pTime = cTime` is skipped, but that path is
taken exactly when `cTime - pTime = 0`, i.e. when `pTime` already equals
`cTime`, so the field still holds the current reading. -/
theorem fps_update_sets_pTime (s : FPSState) (cTime : ℚ)
    (img : Option FImage) (pos : ℕ × ℕ) (color : ℕ × ℕ × ℕ)
    (scale thickness : ℕ) :
    ((FPS.update s cTime img pos color scale thickness).2).pTime = cTime := by
  by_cases h : cTime - s.pTime = 0
  · simp [FPS.update, h]
    linarith
  · cases img <;> simp [FPS.update, h]

/-- C8 counterexample: a call with an image supplied but a zero measured
interval returns the bare scalar `0`, not an `(fps, image)` pair, so the
unconditional claim fails. -/
theorem fps_update_pair_counterexample :
    (FPS.update ⟨0⟩ 0 (some ⟨0, []⟩) (20, 50) (255, 0, 0) 3 3).1 =
      FPSRet.scalar 0 ∧
    FPSRet.scalar 0 ≠ FPSRet.pair 0 ⟨0, []⟩ := by
  constructor
  · simp [FPS.update]
  · decide

/-- C8 amended: when the measured interval is nonzero, a call with an
image returns the pair of the fps value and the image with the fps value
stamped onto it, and a call without an image returns only the fps value.
(On a zero interval the call returns only `0` even when an image is
supplied.) -/
theorem fps_update_return_shape (s : FPSState) (cTime : ℚ) (im : FImage)
    (pos : ℕ × ℕ) (color : ℕ × ℕ × ℕ) (scale thickness : ℕ)
    (h : cTime - s.pTime ≠ 0) :
    (FPS.update s cTime (some im) pos color scale thickness).1 =
      .pair (1 / (cTime - s.pTime))
        (putText im (fpsLabel (1 / (cTime - s.pTime))) pos color scale thickness) ∧
    (FPS.update s cTime none pos color scale thickness).1 =
      .scalar (1 / (cTime - s.pTime)) := by
  constructor <;> simp [FPS.update, h]

/-- Witness for the amended C8 at a concrete nonzero-interval call. -/
theorem fps_update_return_shape_witness :
    (1 : ℚ) - (FPSState.mk 0).pTime ≠ 0 ∧
    (FPS.update ⟨0⟩ 1 (some ⟨5, []⟩) (20, 50) (255, 0, 0) 3 3).1 =
      .pair (1 / ((1 : ℚ) - (FPSState.mk 0).pTime))
        (putText ⟨5, []⟩ (fpsLabel (1 / ((1 : ℚ) - (FPSState.mk 0).pTime)))
          (20, 50) (255, 0, 0) 3 3) ∧
    (FPS.update ⟨0⟩ 1 none (20, 50) (255, 0, 0) 3 3).1 =
      .scalar (1 / ((1 : ℚ) - (FPSState.mk 0).pTime)) := by
  refine ⟨by norm_num, ?_, ?_⟩
  · exact (fps_update_return_shape ⟨0⟩ 1 ⟨5, []⟩ (20, 50) (255, 0, 0) 3 3
      (by norm_num)).1
  · exact (fps_update_return_shape ⟨0⟩ 1 ⟨5, []⟩ (20, 50) (255, 0, 0) 3 3
      (by norm_num)).2

/-- C10: `Timer.stop` appends the sample `now - gap` and returns it while
leaving `gap` unchanged, so two consecutive stops with no intervening
`start` are measured from the same reference instant and, under a
monotone clock, the second sample dominates the first. -/
theorem timer_stop_twice (s : TimerState) (t1 t2 : ℚ) (h : t1 ≤ t2) :
    (Timer.stop s t1).2.gap = s.gap ∧
    (Timer.stop (Timer.stop s t1).2 t2).2.gap = s.gap ∧
    (Timer.stop s t1).1 = t1 - s.gap ∧
    (Timer.stop (Timer.stop s t1).2 t2).1 = t2 - s.gap ∧
    (Timer.stop s t1).1 ≤ (Timer.stop (Timer.stop s t1).2 t2).1 ∧
    (Timer.stop (Timer.stop s t1).2 t2).2.times =
      s.times ++ [t1 - s.gap, t2 - s.gap] := by
  refine ⟨rfl, rfl, rfl, rfl, ?_, by simp [Timer.stop]⟩
  simp only [Timer.stop]
  linarith

/-- Witness for C10 with two stops at times `2` and `5` on a timer
started at `1`. -/
theorem timer_stop_twice_witness :
    (2 : ℚ) ≤ 5 ∧
    (Timer.stop (Timer.stop (Timer.init 1) 2).2 5).2.times =
      (Timer.init 1).times ++ [(2 : ℚ) - 1, (5 : ℚ) - 1] :=
  ⟨by norm_num, (timer_stop_twice (Timer.init 1) 2 5 (by norm_num)).2.2.2.2.2⟩

/-- C4: with `n ≥ 1` recorded samples, `cumsum()` has length `n`, its
`i`-th entry is the sum of the first `i + 1` samples, its last entry
equals `total()`, and `avg()` equals `total() / n`. -/
theorem timer_cumsum_spec (s : TimerState) (h : s.times ≠ []) :
    (Timer.cumsum s).length = s.times.length ∧
    (∀ i, i < s.times.length →
      (Timer.cumsum s)[i]? = some ((s.times.take (i + 1)).sum)) ∧
    (Timer.cumsum s).getLast? = some (Timer.total s) ∧
    Timer.avg s = some (Timer.total s / s.times.length) := by
  have hpos : 0 < s.times.length := List.length_pos.mpr h
  have hlen : (Timer.cumsum s).length = s.times.length :=
    cumsumFrom_length 0 s.times
  have hget : ∀ i, i < s.times.length →
      (Timer.cumsum s)[i]? = some ((s.times.take (i + 1)).sum) := by
    intro i hi
    simpa [Timer.cumsum] using cumsumFrom_getElem? 0 s.times i hi
  refine ⟨hlen, hget, ?_, ?_⟩
  · rw [List.getLast?_eq_getElem?, hlen]
    have hlt : s.times.length - 1 < s.times.length := by omega
    rw [hget (s.times.length - 1) hlt]
    have he : s.times.length - 1 + 1 = s.times.length := by omega
    rw [he, List.take_length]
    rfl
  · have hne : ((s.times.length : ℚ)) ≠ 0 := by
      exact_mod_cast hpos.ne'
    simp [Timer.avg, Timer.total, pydiv, hne]

/-- Witness for C4 on a timer holding the samples `[1, 2, 4]`. -/
theorem timer_cumsum_spec_witness :
    (TimerState.mk 0 [1, 2, 4]).times ≠ [] ∧
    (Timer.cumsum ⟨0, [1, 2, 4]⟩).length = 3 ∧
    (Timer.cumsum ⟨0, [1, 2, 4]⟩).getLast? = some (Timer.total ⟨0, [1, 2, 4]⟩) ∧
    Timer.avg ⟨0, [1, 2, 4]⟩ = some (Timer.total ⟨0, [1, 2, 4]⟩ / 3) := by
  have H := timer_cumsum_spec ⟨0, [1, 2, 4]⟩ (by simp)
  exact ⟨by simp, by simpa using H.1, H.2.2.1, by simpa using H.2.2.2⟩

/-- C5: `protect_region` with a rectangle `[x0, x1, y0, y1]` zeroes
exactly the elements whose row index lies in `[y0, y1)` and column index
in `[x0, x1)` (the numpy sub-rectangle `mask[y0:y1, x0:x1]`), keeps every
other element, and with `None` is the identity. -/
theorem protect_region_spec (mask : MaskImg) (x0 x1 y0 y1 y x : ℕ) :
    ColorFind.protect_region mask none = mask ∧
    maskAt (ColorFind.protect_region mask (some (x0, x1, y0, y1))) y x =
      (maskAt mask y x).map
        (fun v => if y0 ≤ y ∧ y < y1 ∧ x0 ≤ x ∧ x < x1 then 0 else v) := by
  refine ⟨rfl, ?_⟩
  simp only [ColorFind.protect_region, maskAt, zeroRectFrom_getElem?,
    Nat.zero_add]
  cases hrow : mask[y]? with
  | none => rfl
  | some row =>
    simp only [Option.map_some', Option.some_bind]
    by_cases hy : y0 ≤ y ∧ y < y1
    · rw [if_pos hy, zeroRowFrom_getElem?]
      simp only [Nat.zero_add]
      cases hv : row[x]? with
      | none => rfl
      | some v =>
        simp only [Option.map_some']
        congr 1
        split_ifs <;> tauto
    · rw [if_neg hy]
      cases hv : row[x]? with
      | none => rfl
      | some v =>
        simp only [Option.map_some']
        rw [if_neg (by tauto)]

/-- C6: `getColorHSV` maps `'red'`, `'green'`, `'blue'` to the fixed
literal HSV bound pairs of the source and, for every other name, returns
`None` while logging the two warning lines, the second of which lists the
valid names. -/
theorem getColorHSV_spec :
    ColorFind.getColorHSV "red" =
      (some ((146, 141, 77), (179, 255, 255)), []) ∧
    ColorFind.getColorHSV "green" =
      (some ((44, 79, 111), (79, 255, 255)), []) ∧
    ColorFind.getColorHSV "blue" =
      (some ((103, 68, 130), (128, 255, 255)), []) ∧
    ∀ s : String, s ≠ "red" → s ≠ "green" → s ≠ "blue" →
      ColorFind.getColorHSV s =
        (none, ["Color Not Defined", "Available colors: red, green, blue "]) := by
  refine ⟨rfl, rfl, rfl, ?_⟩
  intro s h1 h2 h3
  simp [ColorFind.getColorHSV, h1, h2, h3]

/-- Witness for C6 at the unknown preset name `'purple'`. -/
theorem getColorHSV_spec_witness :
    "purple" ≠ "red" ∧
    ColorFind.getColorHSV "purple" =
      (none, ["Color Not Defined", "Available colors: red, green, blue "]) :=
  ⟨by decide, getColorHSV_spec.2.2.2 "purple" (by decide) (by decide) (by decide)⟩

/-- C9: leaving a `Runcodes` scope entered at `t0` and exited at `t1` —
with arbitrary exception information, so also on exceptional exits —
stops the timer (recording the sample `t1 - t0`) and produces the line
`<description>: <elapsed formatted with 7 fractional digits> sec`; with
the default description the line starts with `Done`. -/
theorem runcodes_exit_report (desc : String) (t0 t1 : ℚ)
    (excInfo : Option String) :
    (Runcodes.exited (Runcodes.enter desc t0) t1 excInfo).1 =
      desc ++ ": " ++ formatFixed 7 (t1 - t0) ++ " sec" ∧
    (∃ ip fr : String,
      formatFixed 7 (t1 - t0) = ip ++ "." ++ fr ∧ fr.length = 7) ∧
    (Runcodes.exited (Runcodes.enter desc t0) t1 excInfo).2.timer.times =
      [t1 - t0] ∧
    (Runcodes.exited (Runcodes.enter Runcodes.defaultDescription t0) t1
      excInfo).1 = "Done" ++ ": " ++ formatFixed 7 (t1 - t0) ++ " sec" := by
  refine ⟨rfl, ?_, by simp [Runcodes.exited, Runcodes.enter, Timer.stop, Timer.init], rfl⟩
  refine ⟨(if t1 - t0 < 0 ∧ (round (|t1 - t0| * (10 : ℚ) ^ 7)).toNat ≠ 0
      then "-" else "") ++
      toString ((round (|t1 - t0| * (10 : ℚ) ^ 7)).toNat / 10 ^ 7),
    String.mk (decDigits 7 ((round (|t1 - t0| * (10 : ℚ) ^ 7)).toNat % 10 ^ 7)),
    rfl, ?_⟩
  exact decDigits_length 7 _

end PyVis
